import Mathlib

/-!
Verification of the quiz web application (quiz_app): a shallow embedding of
`models.py`, `forms.py` and `views.py` in Lean 4, with theorems settling the
frozen claims about scoring, grading, session flow and snapshot isolation.

Modelling conventions:
* Python floats are modelled as rationals (`ℚ`); Django `DurationField` values
  as integer numbers of seconds; timestamps as integer instants.
* The question table is a `List QuizQuestion` in its default ordering
  (`-created_at`), so "stored order" is list order.
* The per-user session (`request.session`) is an explicit `Session` record.
* Nondeterministic ordering (the question mark ordering) is an oracle parameter
  `perm : List QuizQuestion → List QuizQuestion` supplied to the view.
* POST data for the quiz form is a `List (Nat × String)` keyed by question id,
  standing for the fields named `question_<id>`; JSON round-trips of the
  answer map are elided (keys stay `Nat`).
-/

namespace QuizApp

/-- Model of `QuizQuestion` from `models.py`: a multiple-choice question with four
choices, a correct-answer tag in {A,B,C,D}, a difficulty level and an
active flag. -/
structure QuizQuestion where
  id : Nat
  question_text : String
  choice_a : String
  choice_b : String
  choice_c : String
  choice_d : String
  correct_answer : String
  difficulty_level : String
  is_active : Bool
deriving DecidableEq, Repr

/-- Model of `QuizQuestion.get_choices` from `models.py`: the list of (tag, text)
pairs. -/
def QuizQuestion.get_choices (q : QuizQuestion) : List (String × String) :=
  [("A", q.choice_a), ("B", q.choice_b), ("C", q.choice_c), ("D", q.choice_d)]

/-- One entry of the `quiz_questions` JSON list stored on a `UserScore`
(`views.py` lines 156-161): id, text, choice map and correct tag. -/
structure QuestionSnapshot where
  id : Nat
  question : String
  choices : List (String × String)
  correct_answer : String
deriving DecidableEq, Repr

/-- The snapshot dict built for one question in `quiz_view`
(`views.py` lines 156-161). -/
def snapshotOf (q : QuizQuestion) : QuestionSnapshot :=
  { id := q.id
    question := q.question_text
    choices := q.get_choices
    correct_answer := q.correct_answer }

/-- Model of `UserScore` from `models.py`: one completed quiz attempt.  The `user`
foreign key and `completed_at` are irrelevant to the claims and elided. -/
structure UserScore where
  score : Int
  total_questions : Int
  percentage : ℚ
  time_taken : Option Int
  user_answers : List (Nat × String)
  quiz_questions : List QuestionSnapshot
deriving DecidableEq, Repr

/-- Model of `UserScore.save` from `models.py` lines 142-148: recomputes `percentage`
from `score` and `total_questions` before the row is written, overwriting
whatever value the record held. -/
def UserScore.save (s : UserScore) : UserScore :=
  if s.total_questions > 0 then
    { s with percentage := (s.score : ℚ) / (s.total_questions : ℚ) * 100 }
  else
    { s with percentage := 0 }

/-- Model of `UserScore.get_grade` from `models.py` lines 150-161. -/
def UserScore.get_grade (s : UserScore) : String :=
  if s.percentage ≥ 90 then ("A")
  else if s.percentage ≥ 80 then ("B")
  else if s.percentage ≥ 70 then ("C")
  else if s.percentage ≥ 60 then ("D")
  else ("F")

/-- Model of `UserScore.is_passed` from `models.py` lines 163-165. -/
def UserScore.is_passed (s : UserScore) : Bool :=
  decide (s.percentage ≥ 60)

/-- Rank of a letter grade, F lowest, used to state monotonicity of the
grade mapping. -/
def gradeRank : String → Nat
  | "F" => 0
  | "D" => 1
  | "C" => 2
  | "B" => 3
  | "A" => 4
  | _ => 5

/-- A `UserScore` with a given percentage and all other fields trivial;
used to state boundary-value facts about the grade mapping. -/
def mkScoreP (p : ℚ) : UserScore :=
  { score := 0, total_questions := 0, percentage := p,
    time_taken := none, user_answers := [], quiz_questions := [] }

/-- Rounding to one decimal place, as applied to the percentage for display in
`quiz_results_view` (`views.py` line 220).
Ties cannot arise at the values considered here, so the rounding mode is
immaterial. -/
def round1 (p : ℚ) : ℚ := (round (10 * p) : ℤ) / 10

/-- The tags a quiz `ChoiceField` accepts: the keys of the per-question
choice list of (tag, text) pairs for tags A, B, C, D
(`forms.py` lines 75-80). -/
def validTags : List String := ["A", "B", "C", "D"]

/-- Required message of each quiz field (`forms.py` line 89). -/
def requiredMsg : String := "Please select an answer for this question."

/-- Field errors of `QuizForm` (`forms.py` lines 69-90): one field per
presented question, `required=True` with a per-question selection-required
message; a submitted value outside the choices of the field is an
invalid-choice error.  POST data is keyed by question id (the field
`question_<id>`). -/
def QuizForm.field_errors (questions : List QuizQuestion)
    (data : List (Nat × String)) : List (Nat × String) :=
  questions.filterMap fun q =>
    match data.lookup q.id with
    | none => some (q.id, requiredMsg)
    | some v =>
      if validTags.contains v then none
      else some (q.id,
        "Select a valid choice. " ++ v ++ " is not one of the available choices.")

/-- Validity test of a Django form: no field has an error. -/
def QuizForm.is_valid (questions : List QuizQuestion)
    (data : List (Nat × String)) : Bool :=
  (QuizForm.field_errors questions data).isEmpty

/-- Model of `QuizForm.get_user_answers` (`forms.py` lines 92-99): the map from
question id to the cleaned submitted tag. -/
def QuizForm.get_user_answers (questions : List QuizQuestion)
    (data : List (Nat × String)) : List (Nat × String) :=
  questions.filterMap fun q => (data.lookup q.id).map fun v => (q.id, v)

/-- Validation of `QuizSettingsForm.num_questions`: the field-level
`min_value=1` / `max_value=50` validators (`forms.py` lines 112-122)
followed by `clean_num_questions` (`forms.py` lines 144-156), which
rejects a count above the number of active questions with a message
naming the available count. -/
def QuizSettingsForm.validate_num_questions (total_available : Nat)
    (n : Int) : Except String Int :=
  if n < 1 then Except.error ("Ensure this value is greater than or equal to 1.")
  else if n > 50 then Except.error ("Ensure this value is less than or equal to 50.")
  else if n > (total_available : Int) then
    Except.error ("Only " ++ toString total_available ++
      " questions are available. Please choose a smaller number.")
  else Except.ok n

/-- The difficulty choices of `QuizSettingsForm` (`forms.py` lines 105-110). -/
def difficultyChoices : List String := ["ALL", "EASY", "MEDIUM", "HARD"]

/-- The cleaned quiz settings stored in the session by `quiz_setup_view`
(`views.py` lines 80-84). -/
structure QuizSettings where
  num_questions : Nat
  difficulty : String
  random_order : Bool
deriving DecidableEq, Repr

/-- The default settings used by `quiz_view` when the session holds none
(`views.py` lines 102-106). -/
def default_quiz_settings : QuizSettings :=
  { num_questions := 10, difficulty := "ALL", random_order := true }

/-- The per-user session keys touched by the quiz flow
(`request.session`): `quiz_settings`, `quiz_start_time`,
`quiz_result_id`.  Timestamps are integer instants. -/
structure Session where
  quiz_settings : Option QuizSettings
  quiz_start_time : Option Int
  quiz_result_id : Option Nat
deriving DecidableEq, Repr

/-- HTTP method of a request to `quiz_view`. -/
inductive Method
  | get
  | post
deriving DecidableEq, Repr

/-- The response produced by `quiz_view`: redirect to `quiz_setup`, render
the quiz page with the selected questions, or redirect to `quiz_results`. -/
inductive QuizResponse
  | redirectSetup
  | renderQuiz (questions : List QuizQuestion)
  | redirectResults
deriving DecidableEq, Repr

/-- The observable outcome of one `quiz_view` request: the updated
session, the response, and the Score Record inserted into the database
(`none` when no row is written). -/
structure QuizViewResult where
  session : Session
  response : QuizResponse
  created : Option UserScore
deriving DecidableEq, Repr

/-- Model of the active-question query, in the default ordering of the
table. -/
def activeOf (store : List QuizQuestion) : List QuizQuestion :=
  store.filter (·.is_active)

/-- Question selection in `quiz_view` (`views.py` lines 108-118): active
questions, optionally filtered by difficulty, then either permuted by the
random ordering of the database (the oracle `perm`) or kept in stored order,
and truncated to the requested count. -/
def selectQuestions (store : List QuizQuestion)
    (perm : List QuizQuestion → List QuizQuestion)
    (s : QuizSettings) : List QuizQuestion :=
  let base := activeOf store
  let filtered :=
    if s.difficulty ≠ "ALL" then
      base.filter (fun q => q.difficulty_level == s.difficulty)
    else base
  if s.random_order then (perm filtered).take s.num_questions
  else filtered.take s.num_questions

/-- Backfill step of `views.py` lines 127-129: on a valid submission, store the start time
in the session only if it is not already stored. -/
def startBackfill (session : Session) (now : Int) : Session :=
  if session.quiz_start_time = none then
    { session with quiz_start_time := some now }
  else session

/-- The scoring step of `quiz_view` on a valid submission (`views.py`
lines 131-162), given the questions this request selected and the session
after the start-time backfill: count the questions whose submitted tag
equals the correct tag, compute the elapsed time from the start
timestamp of the session, and build the Score Record that is inserted (`save` recomputes
its percentage). -/
def scoreSubmission (questions : List QuizQuestion)
    (postData : List (Nat × String)) (session1 : Session) (now : Int) :
    UserScore :=
  let user_answers := QuizForm.get_user_answers questions postData
  let score := (questions.filter
    (fun q => user_answers.lookup q.id == some q.correct_answer)).length
  let time_taken :=
    match session1.quiz_start_time with
    | some t => some (now - t)
    | none => none
  UserScore.save
    { score := (score : Int)
      total_questions := (questions.length : Int)
      percentage := 0
      time_taken := time_taken
      user_answers := user_answers
      quiz_questions := questions.map snapshotOf }

/-- Model of `quiz_view` (`views.py` lines 97-186), as a function of the question
store, the random-ordering oracle, the current instant, the request
method, the POST data and the incoming session.  The database id of the
inserted row is modelled as 0 (id assignment lives in the store, which the
claims do not read). -/
def quiz_view (store : List QuizQuestion)
    (perm : List QuizQuestion → List QuizQuestion)
    (now : Int) (method : Method) (postData : List (Nat × String))
    (session : Session) : QuizViewResult :=
  let quiz_settings := session.quiz_settings.getD default_quiz_settings
  let questions := selectQuestions store perm quiz_settings
  if questions = [] then
    { session := session, response := QuizResponse.redirectSetup, created := none }
  else
    match method with
    | Method.post =>
      if QuizForm.is_valid questions postData then
        let session1 := startBackfill session now
        let record := scoreSubmission questions postData session1 now
        let session2 : Session :=
          { session1 with quiz_start_time := none, quiz_settings := none, quiz_result_id := some 0 }
        { session := session2
          response := QuizResponse.redirectResults
          created := some record }
      else
        { session := session
          response := QuizResponse.renderQuiz questions
          created := none }
    | Method.get =>
      { session := { session with quiz_start_time := some now }
        response := QuizResponse.renderQuiz questions
        created := none }

/-- Abbreviation for the questions a `quiz_view` request selects: the
settings read from the session (or the defaults) fed to the selection
query. -/
abbrev questionsOf (store : List QuizQuestion)
    (perm : List QuizQuestion → List QuizQuestion) (session : Session) :
    List QuizQuestion :=
  selectQuestions store perm (session.quiz_settings.getD default_quiz_settings)

/-- Model of `quiz_setup_view` on POST (`views.py` lines 74-94): validate the
settings form; on success store the cleaned settings in the session and
redirect to the quiz (`true`); on failure leave the session untouched and
re-render the setup page (`false`). -/
def quiz_setup_view (store : List QuizQuestion) (session : Session)
    (n : Int) (difficulty : String) (random_order : Bool) : Session × Bool :=
  match QuizSettingsForm.validate_num_questions (activeOf store).length n with
  | Except.ok m =>
    if difficultyChoices.contains difficulty then
      let cleaned : QuizSettings :=
        { num_questions := m.toNat, difficulty := difficulty, random_order := random_order }
      ({ session with quiz_settings := some cleaned }, true)
    else (session, false)
  | Except.error _ => (session, false)

/-- One entry of `detailed_results` in `quiz_results_view`
(`views.py` lines 207-215). -/
structure DetailedResult where
  question : String
  choices : List (String × String)
  user_answer : String
  correct_answer : String
  is_correct : Bool
  correct_text : String
  user_text : String
deriving DecidableEq, Repr

/-- The detailed-results entry built from one snapshotted question of a
Score Record (`views.py` lines 202-215): lookups go to the choice map of
the snapshot and the stored answer map of the record only. -/
def detailedFor (us : UserScore) (qd : QuestionSnapshot) : DetailedResult :=
  let user_answer := (us.user_answers.lookup qd.id).getD ("Not answered")
  { question := qd.question
    choices := qd.choices
    user_answer := user_answer
    correct_answer := qd.correct_answer
    is_correct := user_answer == qd.correct_answer
    correct_text := (qd.choices.lookup qd.correct_answer).getD ("Unknown")
    user_text := (qd.choices.lookup user_answer).getD ("Not answered") }

/-- The context rendered by `quiz_results_view` (`views.py` lines 217-223). -/
structure ResultsPage where
  detailed_results : List DetailedResult
  percentage : ℚ
  grade : String
  passed : Bool
deriving DecidableEq, Repr

/-- Model of `quiz_results_view` (`views.py` lines 189-229): resolve the pending
result id from the session against the Score Record table, build the
per-question breakdown, and clear the pending-result marker.  The live
question store is in scope for the view but never consulted. -/
def quiz_results_view (questionStore : List QuizQuestion)
    (scores : List (Nat × UserScore)) (session : Session) :
    Option ResultsPage × Session :=
  match session.quiz_result_id with
  | none => (none, session)
  | some rid =>
    match scores.lookup rid with
    | none => (none, session)
    | some us =>
      (some { detailed_results := us.quiz_questions.map (detailedFor us)
              percentage := round1 us.percentage
              grade := us.get_grade
              passed := us.is_passed },
       { session with quiz_result_id := none })

/-- Concrete active question used in the end-to-end scenarios. -/
def qA : QuizQuestion :=
  { id := 1, question_text := "What is two plus two?"
    choice_a := "Four", choice_b := "Five", choice_c := "Six", choice_d := "Seven"
    correct_answer := "A", difficulty_level := "EASY", is_active := true }

/-- Second concrete active question. -/
def qB : QuizQuestion :=
  { id := 2, question_text := "What is three times three?"
    choice_a := "Six", choice_b := "Nine", choice_c := "Ten", choice_d := "Twelve"
    correct_answer := "B", difficulty_level := "MEDIUM", is_active := true }

/-- Third concrete active question. -/
def qC : QuizQuestion :=
  { id := 3, question_text := "What is ten minus seven?"
    choice_a := "One", choice_b := "Two", choice_c := "Three", choice_d := "Four"
    correct_answer := "C", difficulty_level := "HARD", is_active := true }

/-- Variant of `qA` after an administrator edit: same row id, different text and
correct tag. -/
def qAEdited : QuizQuestion :=
  { id := 1, question_text := "What is two plus three?"
    choice_a := "Four", choice_b := "Five", choice_c := "Six", choice_d := "Seven"
    correct_answer := "B", difficulty_level := "EASY", is_active := true }

/-- A session holding no quiz state at all. -/
def emptySession : Session :=
  { quiz_settings := none, quiz_start_time := none, quiz_result_id := none }

/-- Session configured for a three-question quiz in stored order. -/
def sessionThree : Session :=
  { quiz_settings := some { num_questions := 3, difficulty := "ALL", random_order := false }
    quiz_start_time := none, quiz_result_id := none }

/-- Session configured for a one-question quiz in stored order. -/
def sessionOne : Session :=
  { quiz_settings := some { num_questions := 1, difficulty := "ALL", random_order := false }
    quiz_start_time := none, quiz_result_id := none }

/-- Question store of the three-question scenario, in stored order. -/
def storeThree : List QuizQuestion := [qA, qB, qC]

/-- Submission answering `qA` and `qB` correctly and `qC` incorrectly. -/
def ansThree : List (Nat × String) := [(1, "A"), (2, "B"), (3, "D")]

/-- The record `scoreSubmission` builds (before `save`) in the
three-question scenario: quiz presented at instant 0, submitted at 30. -/
def recordThree : UserScore :=
  { score := 2, total_questions := 3, percentage := 0, time_taken := some 30
    user_answers := [(1, "A"), (2, "B"), (3, "D")]
    quiz_questions := [snapshotOf qA, snapshotOf qB, snapshotOf qC] }

/-- A sample persisted Score Record used as a concrete results-view
input. -/
def sampleScore : UserScore :=
  { score := 1, total_questions := 2, percentage := 50, time_taken := some 5
    user_answers := [(1, "A")]
    quiz_questions := [snapshotOf qA] }

/-- Session holding a pending result pointer to record 7. -/
def sessionResult : Session :=
  { quiz_settings := none, quiz_start_time := none, quiz_result_id := some 7 }

/-- Session for a one-question quiz whose start timestamp was recorded at
instant 40. -/
def sessionOneStarted : Session :=
  { quiz_settings := some { num_questions := 1, difficulty := "ALL", random_order := false }
    quiz_start_time := some 40, quiz_result_id := none }

/-- Saving never changes the stored score. -/
theorem UserScore.save_score (s : UserScore) : s.save.score = s.score := by
  unfold UserScore.save; split_ifs <;> rfl

/-- Saving never changes the stored total. -/
theorem UserScore.save_total_questions (s : UserScore) :
    s.save.total_questions = s.total_questions := by
  unfold UserScore.save; split_ifs <;> rfl

/-- Saving never changes the stored elapsed time. -/
theorem UserScore.save_time_taken (s : UserScore) :
    s.save.time_taken = s.time_taken := by
  unfold UserScore.save; split_ifs <;> rfl

/-- Saving never changes the stored answer map. -/
theorem UserScore.save_user_answers (s : UserScore) :
    s.save.user_answers = s.user_answers := by
  unfold UserScore.save; split_ifs <;> rfl

/-- Saving never changes the stored question snapshot. -/
theorem UserScore.save_quiz_questions (s : UserScore) :
    s.save.quiz_questions = s.quiz_questions := by
  unfold UserScore.save; split_ifs <;> rfl

/-- The percentage a save writes, as a function of score and total. -/
theorem UserScore.save_percentage (s : UserScore) :
    s.save.percentage =
      if s.total_questions > 0 then (s.score : ℚ) / (s.total_questions : ℚ) * 100
      else 0 := by
  unfold UserScore.save; split_ifs <;> rfl

/-- Behaviour of `quiz_view` on GET when some questions are selected:
render them and record the start time. -/
theorem quiz_view_get (store : List QuizQuestion)
    (perm : List QuizQuestion → List QuizQuestion) (now : Int)
    (postData : List (Nat × String)) (session : Session)
    (hne : questionsOf store perm session ≠ []) :
    quiz_view store perm now Method.get postData session =
      { session := { session with quiz_start_time := some now }
        response := QuizResponse.renderQuiz (questionsOf store perm session)
        created := none } := by
  unfold quiz_view
  rw [if_neg hne]

/-- Behaviour of `quiz_view` on an invalid POST when some questions are
selected: re-render them, no session write, no row inserted. -/
theorem quiz_view_post_invalid (store : List QuizQuestion)
    (perm : List QuizQuestion → List QuizQuestion) (now : Int)
    (postData : List (Nat × String)) (session : Session)
    (hne : questionsOf store perm session ≠ [])
    (hnv : QuizForm.is_valid (questionsOf store perm session) postData = false) :
    quiz_view store perm now Method.post postData session =
      { session := session
        response := QuizResponse.renderQuiz (questionsOf store perm session)
        created := none } := by
  unfold quiz_view
  rw [if_neg hne]
  simp only []
  rw [if_neg (by simp [hnv])]

/-- Behaviour of `quiz_view` on a valid POST when some questions are
selected: insert the scored record and clear the quiz session keys. -/
theorem quiz_view_post_valid (store : List QuizQuestion)
    (perm : List QuizQuestion → List QuizQuestion) (now : Int)
    (postData : List (Nat × String)) (session : Session)
    (hne : questionsOf store perm session ≠ [])
    (hval : QuizForm.is_valid (questionsOf store perm session) postData = true) :
    quiz_view store perm now Method.post postData session =
      { session := { startBackfill session now with quiz_start_time := none, quiz_settings := none, quiz_result_id := some 0 }
        response := QuizResponse.redirectResults
        created := some (scoreSubmission (questionsOf store perm session)
                          postData (startBackfill session now) now) } := by
  unfold quiz_view
  rw [if_neg hne]
  simp only []
  rw [if_pos hval]

/-- The snapshot field of the record a submission builds. -/
theorem scoreSubmission_quiz_questions (questions : List QuizQuestion)
    (postData : List (Nat × String)) (session1 : Session) (now : Int) :
    (scoreSubmission questions postData session1 now).quiz_questions =
      questions.map snapshotOf := by
  unfold scoreSubmission
  rw [UserScore.save_quiz_questions]

/-- The elapsed-time field of the record a submission builds. -/
theorem scoreSubmission_time_taken (questions : List QuizQuestion)
    (postData : List (Nat × String)) (session1 : Session) (now : Int) :
    (scoreSubmission questions postData session1 now).time_taken =
      match session1.quiz_start_time with
      | some t => some (now - t)
      | none => none := by
  unfold scoreSubmission
  rw [UserScore.save_time_taken]

/-- C1: For every Score Record written, the stored percentage is recomputed
at write time from the score and total-questions fields — it equals
score/total_questions·100 when total_questions > 0 and 0 otherwise —
regardless of any percentage value supplied by the caller. -/
theorem percentage_recomputed_on_save (s : UserScore) (p : ℚ) :
    (UserScore.save { s with percentage := p }).percentage =
      if s.total_questions > 0 then (s.score : ℚ) / (s.total_questions : ℚ) * 100
      else 0 := by
  unfold UserScore.save
  by_cases h : s.total_questions > 0 <;> simp [h]

/-- C4: the grade of a Score Record is a monotonic function of its
percentage matching the fixed thresholds (≥90 → A, ≥80 → B, ≥70 → C,
≥60 → D, else F), the boundary percentages 90, 80, 70, 60 and 59.999 map
to A, B, C, D, F respectively, and the record is passed exactly when its
percentage is at least 60. -/
theorem grade_thresholds_monotone :
    (∀ s t : UserScore, s.percentage ≤ t.percentage →
      gradeRank s.get_grade ≤ gradeRank t.get_grade) ∧
    (∀ s : UserScore,
      (s.percentage ≥ 90 → s.get_grade = "A") ∧
      (80 ≤ s.percentage ∧ s.percentage < 90 → s.get_grade = "B") ∧
      (70 ≤ s.percentage ∧ s.percentage < 80 → s.get_grade = "C") ∧
      (60 ≤ s.percentage ∧ s.percentage < 70 → s.get_grade = "D") ∧
      (s.percentage < 60 → s.get_grade = "F")) ∧
    ((mkScoreP 90).get_grade = "A" ∧ (mkScoreP 80).get_grade = "B" ∧
     (mkScoreP 70).get_grade = "C" ∧ (mkScoreP 60).get_grade = "D" ∧
     (mkScoreP (59999/1000)).get_grade = "F") ∧
    (∀ s : UserScore, s.is_passed = true ↔ s.percentage ≥ 60) := by
  refine ⟨?_, ?_, ?_, ?_⟩
  · intro s t h
    unfold UserScore.get_grade gradeRank
    split_ifs <;> simp <;> linarith
  · intro s
    unfold UserScore.get_grade
    refine ⟨?_, ?_, ?_, ?_, ?_⟩ <;> intro h <;> split_ifs <;>
      first | rfl | (exfalso; rcases h with ⟨h1, h2⟩ <;> linarith) |
        (exfalso; linarith)
  · refine ⟨?_, ?_, ?_, ?_, ?_⟩ <;> norm_num [mkScoreP, UserScore.get_grade]
  · intro s
    unfold UserScore.is_passed
    exact decide_eq_true_iff

/-- Witness for `grade_thresholds_monotone` at concrete inputs: percentages
50 and 95 are ordered, so their grade ranks are; 85 is between 80 and 90
and grades to B. -/
theorem grade_thresholds_monotone_witness :
    gradeRank (mkScoreP 50).get_grade ≤ gradeRank (mkScoreP 95).get_grade ∧
    (mkScoreP 85).get_grade = "B" := by
  refine ⟨?_, ?_⟩
  · exact grade_thresholds_monotone.1 (mkScoreP 50) (mkScoreP 95) (by norm_num [mkScoreP])
  · exact (grade_thresholds_monotone.2.1 (mkScoreP 85)).2.1 (by norm_num [mkScoreP])

/-- Percentage of the saved record in the three-question scenario:
2 of 3 correct is 200/3 percent. -/
theorem recordThree_percentage :
    (UserScore.save recordThree).percentage = 200 / 3 := by
  rw [UserScore.save_percentage]
  norm_num [recordThree]

/-- C6: for every submission in which at least one presented question has
no selected choice tag, the submission is rejected with a per-question
selection-required error, the flow stays on the rendered questions with
the session unchanged, and no Score Record is persisted. -/
theorem unanswered_submission_rejected (store : List QuizQuestion)
    (perm : List QuizQuestion → List QuizQuestion) (now : Int)
    (postData : List (Nat × String)) (session : Session) (q : QuizQuestion)
    (hq : q ∈ questionsOf store perm session)
    (hmiss : postData.lookup q.id = none) :
    (q.id, requiredMsg) ∈
      QuizForm.field_errors (questionsOf store perm session) postData ∧
    quiz_view store perm now Method.post postData session =
      { session := session
        response := QuizResponse.renderQuiz (questionsOf store perm session)
        created := none } := by
  have herr : (q.id, requiredMsg) ∈
      QuizForm.field_errors (questionsOf store perm session) postData := by
    unfold QuizForm.field_errors
    exact List.mem_filterMap.mpr ⟨q, hq, by rw [hmiss]⟩
  have hne : questionsOf store perm session ≠ [] := List.ne_nil_of_mem hq
  have hnv : QuizForm.is_valid (questionsOf store perm session) postData = false := by
    unfold QuizForm.is_valid
    cases h : QuizForm.field_errors (questionsOf store perm session) postData with
    | nil => rw [h] at herr; cases herr
    | cons a l => rfl
  exact ⟨herr, quiz_view_post_invalid store perm now postData session hne hnv⟩

/-- Witness for `unanswered_submission_rejected`: one active question and
empty POST data. -/
theorem unanswered_submission_rejected_witness :
    (1, requiredMsg) ∈
      QuizForm.field_errors (questionsOf [qA] id emptySession) [] ∧
    quiz_view [qA] id 0 Method.post [] emptySession =
      { session := emptySession
        response := QuizResponse.renderQuiz (questionsOf [qA] id emptySession)
        created := none } :=
  unanswered_submission_rejected [qA] id 0 [] emptySession qA (by decide) rfl

/-- C2 counterexample: present the single stored question at instant 0,
edit the stored question (same id, new text and correct tag), then
submit; the created Score Record holds the snapshot of the edited
question as re-read at scoring time, which differs from the snapshot
captured at presentation time. -/
theorem snapshot_reread_counterexample :
    (quiz_view [qA] id 0 Method.get [] sessionOne).response =
      QuizResponse.renderQuiz [qA] ∧
    ((quiz_view [qAEdited] id 10 Method.post [(1, "A")]
        (quiz_view [qA] id 0 Method.get [] sessionOne).session).created.map
      UserScore.quiz_questions) = some [snapshotOf qAEdited] ∧
    [snapshotOf qAEdited] ≠ [snapshotOf qA] := by
  refine ⟨rfl, rfl, by decide⟩

/-- C2 amended: the snapshot stored in the created Score Record is built
from the questions the submission request reads from the Question Store
at scoring time (the selection query is re-run on submission); it
coincides with the presentation-time capture only when the store still
yields the same questions. -/
theorem snapshot_from_store_at_scoring (store : List QuizQuestion)
    (perm : List QuizQuestion → List QuizQuestion) (now : Int)
    (postData : List (Nat × String)) (session : Session)
    (hne : questionsOf store perm session ≠ [])
    (hval : QuizForm.is_valid (questionsOf store perm session) postData = true) :
    ∃ us, (quiz_view store perm now Method.post postData session).created = some us ∧
      us.quiz_questions = (questionsOf store perm session).map snapshotOf := by
  refine ⟨scoreSubmission (questionsOf store perm session) postData
      (startBackfill session now) now, ?_, ?_⟩
  · rw [quiz_view_post_valid store perm now postData session hne hval]
  · exact scoreSubmission_quiz_questions _ _ _ _

/-- Witness for `snapshot_from_store_at_scoring`: a one-question store
with a fully answered submission. -/
theorem snapshot_from_store_at_scoring_witness :
    ∃ us, (quiz_view [qA] id 10 Method.post [(1, "A")] sessionOne).created = some us ∧
      us.quiz_questions = (questionsOf [qA] id sessionOne).map snapshotOf :=
  snapshot_from_store_at_scoring [qA] id 10 [(1, "A")] sessionOne (by decide) (by decide)

/-- C3 counterexample: in the three-question scenario (2 of 3 correct,
percentage 200/3) the created Score Record counts as passed —
`is_passed` evaluates to `true`, where the claim asserts passed = False. -/
theorem three_question_passed_counterexample :
    ((quiz_view storeThree id 30 Method.post ansThree
        (quiz_view storeThree id 0 Method.get [] sessionThree).session).created.map
      UserScore.is_passed) = some true := by
  have hcreated : (quiz_view storeThree id 30 Method.post ansThree
      (quiz_view storeThree id 0 Method.get [] sessionThree).session).created =
      some (UserScore.save recordThree) := rfl
  rw [hcreated, Option.map_some']
  unfold UserScore.is_passed
  rw [recordThree_percentage]
  exact congrArg some (decide_eq_true (by norm_num))

/-- C3 amended: with exactly 3 active questions, requesting 3 with random
order off presents all 3 in stored order; answering 2 correctly and 1
incorrectly produces a Score Record with score 2, total 3, displayed
percentage 66.7 and grade D — and the record counts as passed
(200/3 ≥ 60), not failed as the claim states. -/
theorem three_question_scenario :
    (quiz_view storeThree id 0 Method.get [] sessionThree).response =
      QuizResponse.renderQuiz [qA, qB, qC] ∧
    ∃ us, (quiz_view storeThree id 30 Method.post ansThree
        (quiz_view storeThree id 0 Method.get [] sessionThree).session).created = some us ∧
      us.score = 2 ∧ us.total_questions = 3 ∧ round1 us.percentage = 667 / 10 ∧
      us.get_grade = "D" ∧ us.is_passed = true := by
  refine ⟨rfl, ⟨UserScore.save recordThree, rfl, ?_, ?_, ?_, ?_, ?_⟩⟩
  · rw [UserScore.save_score]; rfl
  · rw [UserScore.save_total_questions]; rfl
  · rw [recordThree_percentage]
    unfold round1
    rw [round_eq]
    norm_num
  · unfold UserScore.get_grade
    rw [recordThree_percentage]
    rw [if_neg (by norm_num), if_neg (by norm_num), if_neg (by norm_num),
      if_pos (by norm_num)]
  · unfold UserScore.is_passed
    rw [recordThree_percentage]
    exact decide_eq_true (by norm_num)

/-- C5 counterexample: two successive GET renders of the same unanswered
quiz, at instants 0 and 5, store different start timestamps — the second
render re-records the start time. -/
theorem start_time_rerecorded_counterexample :
    (quiz_view [qA] id 0 Method.get [] sessionOne).session.quiz_start_time =
      some 0 ∧
    (quiz_view [qA] id 5 Method.get []
        (quiz_view [qA] id 0 Method.get [] sessionOne).session).session.quiz_start_time =
      some 5 ∧
    (some (5 : Int)) ≠ (some (0 : Int)) := by
  decide

/-- C5 amended: the start timestamp is recorded in the session at every
GET presentation of the quiz — a later GET re-render overwrites it with
the newer instant — while a re-render caused by an invalid submission
leaves the session, and with it the recorded start time, unchanged. -/
theorem start_time_recording (store : List QuizQuestion)
    (perm : List QuizQuestion → List QuizQuestion) (now : Int)
    (postData : List (Nat × String)) (session : Session)
    (hne : questionsOf store perm session ≠ []) :
    (quiz_view store perm now Method.get [] session).session.quiz_start_time =
      some now ∧
    (QuizForm.is_valid (questionsOf store perm session) postData = false →
      (quiz_view store perm now Method.post postData session).session = session) := by
  constructor
  · rw [quiz_view_get store perm now [] session hne]
  · intro hnv
    rw [quiz_view_post_invalid store perm now postData session hne hnv]

/-- Witness for `start_time_recording`: a GET at instant 7 records 7, and
an invalid (empty) submission leaves the session unchanged. -/
theorem start_time_recording_witness :
    (quiz_view [qA] id 7 Method.get [] sessionOne).session.quiz_start_time =
      some 7 ∧
    (quiz_view [qA] id 7 Method.post [] sessionOne).session = sessionOne := by
  have h := start_time_recording [qA] id 7 [] sessionOne (by decide)
  exact ⟨h.1, h.2 (by decide)⟩

/-- C9 counterexample: a valid submission with no start timestamp ever
recorded for the attempt yields elapsed time `some 0` — the backfill sets
the start to the submission instant — rather than null. -/
theorem time_taken_never_null_counterexample :
    sessionOne.quiz_start_time = none ∧
    ((quiz_view [qA] id 100 Method.post [(1, "A")] sessionOne).created.map
      UserScore.time_taken) = some (some 0) := by
  refine ⟨rfl, rfl⟩

/-- C9 amended: for every completed submission, the elapsed time of the
Score Record equals the submission instant minus the start timestamp the
session records, where a missing start timestamp is first backfilled with
the submission instant itself — so in that case the elapsed time is zero,
and it is never null. -/
theorem time_taken_formula (store : List QuizQuestion)
    (perm : List QuizQuestion → List QuizQuestion) (now : Int)
    (postData : List (Nat × String)) (session : Session)
    (hne : questionsOf store perm session ≠ [])
    (hval : QuizForm.is_valid (questionsOf store perm session) postData = true) :
    ∃ us, (quiz_view store perm now Method.post postData session).created = some us ∧
      us.time_taken = some (now - session.quiz_start_time.getD now) := by
  refine ⟨scoreSubmission (questionsOf store perm session) postData
      (startBackfill session now) now, ?_, ?_⟩
  · rw [quiz_view_post_valid store perm now postData session hne hval]
  · rw [scoreSubmission_time_taken]
    cases h : session.quiz_start_time with
    | none => simp [startBackfill, h]
    | some t => simp [startBackfill, h]

/-- Witness for `time_taken_formula`: start recorded at 40, submitted at
100, elapsed 60. -/
theorem time_taken_formula_witness :
    ∃ us, (quiz_view [qA] id 100 Method.post [(1, "A")]
        sessionOneStarted).created = some us ∧
      us.time_taken = some 60 :=
  time_taken_formula [qA] id 100 [(1, "A")] sessionOneStarted (by decide) (by decide)

/-- C8: the results breakdown is computed only from the snapshot stored
inside the Score Record: the rendered page is independent of the live
question store (so editing, deactivating or deleting Question rows after
scoring changes nothing), and a pending result id that resolves to a
stored record renders exactly the page built from the fields of that
record. -/
theorem results_independent_of_question_store :
    (∀ (store1 store2 : List QuizQuestion) (scores : List (Nat × UserScore))
        (session : Session),
      quiz_results_view store1 scores session =
        quiz_results_view store2 scores session) ∧
    (∀ (store : List QuizQuestion) (scores : List (Nat × UserScore))
        (session : Session) (rid : Nat) (us : UserScore),
      session.quiz_result_id = some rid → scores.lookup rid = some us →
      (quiz_results_view store scores session).1 =
        some { detailed_results := us.quiz_questions.map (detailedFor us)
               percentage := round1 us.percentage
               grade := us.get_grade
               passed := us.is_passed }) := by
  constructor
  · intro store1 store2 scores session
    rfl
  · intro store scores session rid us h1 h2
    simp only [quiz_results_view, h1, h2]

/-- Witness for `results_independent_of_question_store`: record 7 is
pending and resolves to `sampleScore`; the store passed to the view is an
edited one. -/
theorem results_independent_of_question_store_witness :
    (quiz_results_view [qAEdited] [(7, sampleScore)] sessionResult).1 =
      some { detailed_results := sampleScore.quiz_questions.map (detailedFor sampleScore)
             percentage := round1 sampleScore.percentage
             grade := sampleScore.get_grade
             passed := sampleScore.is_passed } :=
  results_independent_of_question_store.2 [qAEdited] [(7, sampleScore)]
    sessionResult 7 sampleScore rfl rfl

/-- C7: quiz settings validation accepts a requested count exactly when
it lies in 1..50 and does not exceed the number of active questions;
when the count is within 1..50 but exceeds the available total, the
error names that total and the setup stores nothing in the session, so
no quiz is started; in particular requesting 10 when 5 are available
names 5. -/
theorem num_questions_validation (store : List QuizQuestion) (n : Int)
    (session : Session) (d : String) (ro : Bool) :
    ((∃ m, QuizSettingsForm.validate_num_questions (activeOf store).length n =
        Except.ok m) ↔
      (1 ≤ n ∧ n ≤ 50 ∧ n ≤ ((activeOf store).length : Int))) ∧
    (((activeOf store).length : Int) < n → n ≤ 50 →
      QuizSettingsForm.validate_num_questions (activeOf store).length n =
        Except.error ("Only " ++ toString (activeOf store).length ++
          " questions are available. Please choose a smaller number.") ∧
      quiz_setup_view store session n d ro = (session, false)) ∧
    QuizSettingsForm.validate_num_questions 5 10 =
      Except.error ("Only 5 questions are available. Please choose a smaller number.") := by
  refine ⟨?_, ?_, ?_⟩
  · unfold QuizSettingsForm.validate_num_questions
    split_ifs with h1 h2 h3 <;> simp <;> omega
  · intro hgt hle
    have hv : QuizSettingsForm.validate_num_questions (activeOf store).length n =
        Except.error ("Only " ++ toString (activeOf store).length ++
          " questions are available. Please choose a smaller number.") := by
      unfold QuizSettingsForm.validate_num_questions
      rw [if_neg (by omega), if_neg (by omega), if_pos (by omega)]
    refine ⟨hv, ?_⟩
    unfold quiz_setup_view
    rw [hv]
  · rfl

/-- Witness for `num_questions_validation`: requesting 10 of 5 active
questions is rejected with a message naming 5 and the session stays
empty. -/
theorem num_questions_validation_witness :
    QuizSettingsForm.validate_num_questions
        (activeOf (List.replicate 5 qA)).length 10 =
      Except.error ("Only " ++ toString (activeOf (List.replicate 5 qA)).length ++
        " questions are available. Please choose a smaller number.") ∧
    quiz_setup_view (List.replicate 5 qA) emptySession 10 "ALL" true =
      (emptySession, false) :=
  (num_questions_validation (List.replicate 5 qA) 10 emptySession ("ALL") true).2.1
    (by decide) (by decide)

/-- C10: reaching the quiz page with no settings in the session proceeds
with the defaults (10 questions, all difficulties, random order) rather
than failing or redirecting to setup: whenever at least one active
question exists the page renders the permuted active set truncated to 10
— the setup-form bound against the available count is never consulted —
and the number of questions presented is the minimum of 10 and the
active count. -/
theorem default_settings_path (store : List QuizQuestion)
    (perm : List QuizQuestion → List QuizQuestion) (now : Int) (session : Session)
    (hs : session.quiz_settings = none)
    (hperm : (perm (activeOf store)).Perm (activeOf store))
    (hne : activeOf store ≠ []) :
    quiz_view store perm now Method.get [] session =
      { session := { session with quiz_start_time := some now }
        response := QuizResponse.renderQuiz ((perm (activeOf store)).take 10)
        created := none } ∧
    ((perm (activeOf store)).take 10).length = min 10 (activeOf store).length := by
  have hsel : questionsOf store perm session = (perm (activeOf store)).take 10 := by
    unfold questionsOf selectQuestions
    rw [hs]
    simp [default_quiz_settings]
  have hne2 : questionsOf store perm session ≠ [] := by
    rw [hsel]
    intro hcontra
    rcases List.take_eq_nil_iff.mp hcontra with h10 | hnil
    · exact absurd h10 (by norm_num)
    · exact hne (List.eq_nil_of_length_eq_zero
        (by rw [← hperm.length_eq, hnil]; rfl))
  constructor
  · rw [quiz_view_get store perm now [] session hne2, hsel]
  · rw [List.length_take, hperm.length_eq]

/-- Witness for `default_settings_path`: one active question, identity
ordering, empty session: the quiz renders that question with the start
time recorded. -/
theorem default_settings_path_witness :
    quiz_view [qA] id 3 Method.get [] emptySession =
      { session := { emptySession with quiz_start_time := some 3 }
        response := QuizResponse.renderQuiz [qA]
        created := none } ∧
    ([qA] : List QuizQuestion).length = min 10 (activeOf [qA]).length := by
  have h := default_settings_path [qA] id 3 emptySession rfl (List.Perm.refl _)
    (by decide)
  exact h

end QuizApp
